import Mathlib

/-!
Verification of the ICMP probe core (`prober/icmp.go`) of the blackbox
exporter.  The probe is embedded shallowly: every effectful call
(resolution, socket open, write, set-deadline, each blocking receive) takes
its outcome from an explicit `Env` record, and the probe returns both its
boolean outcome and a trace of the externally visible events it performed.
The marshalling of `golang.org/x/net/icmp` (an external library dependency)
is reproduced byte for byte: IPv4 messages get the internet checksum folded
into bytes 2-3, IPv6 messages marshalled without a pseudo-header keep those
bytes zero.
-/

namespace ICMPProbe

/-- ICMP message type, as in `icmp.Message.Type` (`ipv4.ICMPType` or
`ipv6.ICMPType`; any other implementation of the interface makes
`Marshal` fail with `errInvalidProtocol`). -/
inductive ICMPType where
  | v4 (t : Nat)
  | v6 (t : Nat)
  | unknown
deriving DecidableEq

/-- `Type.Protocol()`: 1 for ICMPv4, 58 for ICMPv6. -/
def ICMPType.protocol : ICMPType → Nat
  | .v4 _ => 1
  | .v6 _ => 58
  | .unknown => 0

/-- The leading wire byte of the type constant. -/
def ICMPType.toByte : ICMPType → Nat
  | .v4 t => t % 256
  | .v6 t => t % 256
  | .unknown => 0

/-- `icmp.Echo` body: identifier, sequence number and payload. -/
structure Echo where
  ID : Nat
  Seq : Nat
  Data : List Nat
deriving DecidableEq

/-- `(*icmp.Echo).Marshal`: two big-endian 16-bit fields followed by the
payload bytes. -/
def Echo.marshalBody (p : Echo) : List Nat :=
  [(p.ID >>> 8) % 256, p.ID % 256, (p.Seq >>> 8) % 256, p.Seq % 256] ++ p.Data

/-- `icmp.Message` with an echo body (the only body the probe builds). -/
structure Message where
  type : ICMPType
  Code : Nat
  Body : Echo
deriving DecidableEq

/-- The running 32-bit sum of the internet checksum: 16-bit little-endian
word pairs, a trailing lone byte added as is. -/
def checksumSum : List Nat → Nat
  | [] => 0
  | [x] => x
  | x :: y :: rest => ((y <<< 8) ||| x) + checksumSum rest

/-- Folding the carries and complementing, as the library's `checksum`. -/
def checksum (b : List Nat) : Nat :=
  let s := checksumSum b
  let s := s >>> 16 + s % 65536
  let s := s + s >>> 16
  65535 - s % 65536

/-- XOR a value into byte `i` of the buffer (`b[i] ^= v`). -/
def setXor (b : List Nat) (i v : Nat) : List Nat :=
  b.set i ((b.getD i 0) ^^^ v)

/-- `(*icmp.Message).Marshal(nil)`: header bytes `[type, code, 0, 0]`, the
marshalled body appended; for ICMPv6 with a nil pseudo-header the checksum
cannot be computed and the bytes are returned with checksum zero, for
ICMPv4 the internet checksum is XORed into bytes 2-3. -/
def Message.Marshal (m : Message) : Option (List Nat) :=
  match m.type with
  | .unknown => none
  | t =>
    let b := [t.toByte, m.Code % 256, 0, 0] ++ m.Body.marshalBody
    if t.protocol = 58 then
      some b
    else
      let s := checksum b
      some (setXor (setXor b 2 (s % 256)) 3 ((s >>> 8) % 256))

/-- `getICMPSequence`, with the mutex-protected global `icmpSequence`
made explicit: the probe-wide `uint16` counter is incremented and the new
value returned.  The mutex makes each call atomic, so concurrent executions
are exactly the serial executions modelled here.  Result is
(new counter state, returned value). -/
def getICMPSequence (icmpSequence : Nat) : Nat × Nat :=
  let s := (icmpSequence + 1) % 65536
  (s, s)

/-- Outputs of `n` strictly sequential calls to `getICMPSequence`
starting from counter state `s`. -/
def seqCalls : Nat → Nat → List Nat
  | _, 0 => []
  | s, n + 1 =>
    let r := getICMPSequence s
    r.2 :: seqCalls r.1 n

/-- The resolved target (`*net.IPAddr`): its string form, used for the
peer comparison and as write destination, and whether `ip.IP.To4()` is
non-nil. -/
structure IPAddr where
  s : String
  isV4 : Bool
deriving DecidableEq

/-- Outcome of one blocking `socket.ReadFrom` call: a timeout-classified
error (`net.Error` with `Timeout()` true), any other error, or a packet of
`data.length` bytes from peer address `peer` (string form). -/
inductive RecvResult where
  | timeout
  | readErr
  | packet (peer : String) (data : List Nat)
deriving DecidableEq

/-- The environment a probe call runs against: the outcome of every
effectful step, the process identity, the pre-call state of the global
sequence counter, the context deadline and the instants the two
`time.Now()` calls observe. -/
structure Env where
  /-- `chooseProtocol` result (`none` = resolution error). -/
  resolve : Option IPAddr
  /-- `icmp.ListenPacket` succeeds. -/
  listenOk : Bool
  /-- `os.Getpid()`. -/
  pid : Nat
  /-- Value of the global `icmpSequence` before this call. -/
  seq : Nat
  /-- `socket.WriteTo` succeeds. -/
  writeOk : Bool
  /-- `socket.SetReadDeadline` succeeds. -/
  setDeadlineOk : Bool
  /-- `ctx.Deadline()`: `some d` when ok, `none` when the context carries
  no deadline (the returned time is then the zero time). -/
  ctxDeadline : Option Int
  /-- Instant observed by the `time.Now()` receiver of `.Add`. -/
  now1 : Int
  /-- Instant observed by the `time.Now()` argument of `.Sub`. -/
  now2 : Int
  /-- Outcomes of the successive `socket.ReadFrom` calls. -/
  recvs : List RecvResult

/-- Go's zero `time.Time` (1 January, year 1), as a model instant. -/
def zeroTime : Int := 0

/-- `time.minDuration` in nanoseconds. -/
def minDuration : Int := -(2 ^ 63)

/-- `time.maxDuration` in nanoseconds. -/
def maxDuration : Int := 2 ^ 63 - 1

/-- `t.Sub(u)`: the difference, saturated to the `int64` duration range. -/
def timeSub (t u : Int) : Int :=
  let d := t - u
  if d < minDuration then minDuration
  else if maxDuration < d then maxDuration
  else d

/-- Lines 52-53: `timeoutDeadline, _ := ctx.Deadline()` (the ok flag is
dropped, a missing deadline yields the zero time) and
`deadline := time.Now().Add(timeoutDeadline.Sub(time.Now()))`. -/
def computeDeadline (e : Env) : Int :=
  let timeoutDeadline := e.ctxDeadline.getD zeroTime
  e.now1 + timeSub timeoutDeadline e.now2

/-- Externally visible events of one probe execution. -/
inductive Ev where
  /-- `icmp.ListenPacket` returned a socket. -/
  | listen
  /-- `socket.WriteTo(b, dest)` was called. -/
  | send (b : List Nat) (dest : String)
  /-- `socket.SetReadDeadline(d)` was called. -/
  | setDeadline (d : Int)
  /-- One `socket.ReadFrom` call was issued. -/
  | recv
  /-- `socket.Close()` ran (the deferred close). -/
  | close
deriving DecidableEq

/-- Payload of the echo request: `[]byte("Prometheus Blackbox Exporter")`. -/
def icmpPayload : List Nat := "Prometheus Blackbox Exporter".data.map Char.toNat

/-- The echo-request message the probe builds for environment `e` and
resolved address `ip`: type by IP version (`ipv6.ICMPTypeEchoRequest` = 128
when `ip.IP.To4() == nil`, else `ipv4.ICMPTypeEcho` = 8), code 0, identifier
`os.Getpid() & 0xffff`, sequence `getICMPSequence()`, fixed payload. -/
def probeMessage (e : Env) (ip : IPAddr) : Message :=
  { type := if ip.isV4 = false then .v6 128 else .v4 8
    Code := 0
    Body := { ID := e.pid &&& 0xffff
              Seq := (getICMPSequence e.seq).2
              Data := icmpPayload } }

/-- The same message with the type switched to the version's echo-reply
constant (`ipv6.ICMPTypeEchoReply` = 129 / `ipv4.ICMPTypeEchoReply` = 0),
as lines 101-102 do before the second marshal. -/
def replyMessage (e : Env) (ip : IPAddr) : Message :=
  { probeMessage e ip with
      type := if ip.isV4 = false then .v6 129 else .v4 0 }

/-- The receive loop (lines 115-137): on a timeout error return false; on
any other receive error continue; on a packet, discard it when the peer's
string form differs from the target's, otherwise (for IPv6 replies) zero
checksum bytes 2-3 of the received copy and compare the received bytes
against the expected reply buffer `wb`; a match returns true, a mismatch
continues.  `none` means the supplied receive outcomes were exhausted with
the loop still running. -/
def probeLoop (ipStr : String) (isV6Reply : Bool) (wb : List Nat) :
    List RecvResult → Option Bool × List Ev
  | [] => (none, [])
  | .timeout :: _ => (some false, [.recv])
  | .readErr :: rest =>
    let r := probeLoop ipStr isV6Reply wb rest
    (r.1, .recv :: r.2)
  | .packet peer data :: rest =>
    if peer ≠ ipStr then
      let r := probeLoop ipStr isV6Reply wb rest
      (r.1, .recv :: r.2)
    else
      let rb := if isV6Reply then (data.set 2 0).set 3 0 else data
      if rb = wb then (some true, [.recv])
      else
        let r := probeLoop ipStr isV6Reply wb rest
        (r.1, .recv :: r.2)

/-- `ProbeICMP`, parameterised by the marshal routine so that an injected
marshal failure can be studied (the probe body only ever builds valid
echo messages, for which the library marshal always succeeds).  Follows
lines 46-137 step by step; the result is the returned boolean (`none` when
`Env.recvs` ran out inside the loop) together with the event trace. -/
def probeWith (marshalFn : Message → Option (List Nat)) (e : Env) :
    Option Bool × List Ev :=
  let deadline := computeDeadline e
  match e.resolve with
  | none => (some false, [])
  | some ip =>
    let replyType : ICMPType := if ip.isV4 = false then .v6 129 else .v4 0
    if e.listenOk = false then (some false, [])
    else
      match marshalFn (probeMessage e ip) with
      | none => (some false, [.listen, .close])
      | some wb =>
        if e.writeOk = false then (some false, [.listen, .send wb ip.s, .close])
        else
          match marshalFn (replyMessage e ip) with
          | none => (some false, [.listen, .send wb ip.s, .close])
          | some wb2 =>
            if e.setDeadlineOk = false then
              (some false,
               [.listen, .send wb ip.s, .setDeadline deadline, .close])
            else
              let r := probeLoop ip.s (replyType == ICMPType.v6 129) wb2 e.recvs
              (r.1,
               [Ev.listen, Ev.send wb ip.s, Ev.setDeadline deadline]
                 ++ r.2 ++ [Ev.close])

/-- `ProbeICMP` with the real library marshal. -/
def ProbeICMP (e : Env) : Option Bool × List Ev :=
  probeWith Message.Marshal e

/-- Number of `ReadFrom` calls recorded in a trace. -/
def recvCount (t : List Ev) : Nat :=
  t.countP fun ev => match ev with | .recv => true | _ => false

/-- Number of `WriteTo` calls recorded in a trace. -/
def sendCount (t : List Ev) : Nat :=
  t.countP fun ev => match ev with | .send _ _ => true | _ => false

/-- Number of sockets opened in a trace. -/
def listenCount (t : List Ev) : Nat :=
  t.countP fun ev => match ev with | .listen => true | _ => false

/-- Number of sockets closed in a trace. -/
def closeCount (t : List Ev) : Nat :=
  t.countP fun ev => match ev with | .close => true | _ => false

/-- A sample IPv6 environment for concrete instantiations. -/
def sampleEnv : Env :=
  { resolve := some { s := "::1", isV4 := false }, listenOk := true,
    pid := 0, seq := 0, writeOk := true, setDeadlineOk := true,
    ctxDeadline := some 100, now1 := 5, now2 := 5, recvs := [] }

/-- A sample IPv4 environment for concrete instantiations. -/
def sampleEnvV4 : Env :=
  { sampleEnv with resolve := some { s := "1.2.3.4", isV4 := true } }

/-! ### Marshal equations -/

theorem Marshal_v4 (t code body) :
    Message.Marshal { type := ICMPType.v4 t, Code := code, Body := body } =
      some (setXor (setXor ([t % 256, code % 256, 0, 0] ++ body.marshalBody) 2
              (checksum ([t % 256, code % 256, 0, 0] ++ body.marshalBody) % 256)) 3
              ((checksum ([t % 256, code % 256, 0, 0] ++ body.marshalBody) >>> 8) % 256)) :=
  rfl

theorem Marshal_v6 (t code body) :
    Message.Marshal { type := ICMPType.v6 t, Code := code, Body := body } =
      some ([t % 256, code % 256, 0, 0] ++ body.marshalBody) :=
  rfl

/-- The probe's request message always marshals (its type is a genuine
v4/v6 constant). -/
theorem marshal_probeMessage (e : Env) (ip : IPAddr) :
    ∃ wb, Message.Marshal (probeMessage e ip) = some wb := by
  cases hb : ip.isV4 <;> simp [probeMessage, hb, Marshal_v4, Marshal_v6]

/-- The probe's expected-reply message always marshals. -/
theorem marshal_replyMessage (e : Env) (ip : IPAddr) :
    ∃ wb, Message.Marshal (replyMessage e ip) = some wb := by
  cases hb : ip.isV4 <;>
    simp [replyMessage, probeMessage, hb, Marshal_v4, Marshal_v6]

/-! ### Reduction of the probe under a successful setup -/

/-- With resolution, listen, write and set-deadline all succeeding and both
marshals returning buffers, the probe is the receive loop wrapped in the
listen/send/set-deadline/close trace. -/
theorem probeWith_setup (f : Message → Option (List Nat)) (e : Env)
    (ip : IPAddr) (wb wb2 : List Nat)
    (h1 : e.resolve = some ip) (h2 : e.listenOk = true)
    (h3 : e.writeOk = true) (h4 : e.setDeadlineOk = true)
    (hm1 : f (probeMessage e ip) = some wb)
    (hm2 : f (replyMessage e ip) = some wb2) :
    probeWith f e =
      ((probeLoop ip.s (!ip.isV4) wb2 e.recvs).1,
       [Ev.listen, Ev.send wb ip.s, Ev.setDeadline (computeDeadline e)]
         ++ (probeLoop ip.s (!ip.isV4) wb2 e.recvs).2 ++ [Ev.close]) := by
  have hflag : ∀ b : Bool,
      ((if b = false then ICMPType.v6 129 else ICMPType.v4 0)
        == ICMPType.v6 129) = !b := by decide
  cases hb : ip.isV4
  · simp [probeWith, h1, h2, h3, h4, hm1, hm2, hb, hflag]
  · simp [probeWith, h1, h2, h3, h4, hm1, hm2, hb, hflag]
    exact ⟨rfl, rfl⟩

/-! ### Receive-loop lemmas -/

/-- Unfolding equations for the loop. -/
theorem probeLoop_nil (ipStr isV6 wb) :
    probeLoop ipStr isV6 wb [] = (none, []) := rfl

theorem probeLoop_timeout (ipStr isV6 wb rest) :
    probeLoop ipStr isV6 wb (RecvResult.timeout :: rest) =
      (some false, [Ev.recv]) := rfl

theorem probeLoop_readErr (ipStr isV6 wb rest) :
    probeLoop ipStr isV6 wb (RecvResult.readErr :: rest) =
      ((probeLoop ipStr isV6 wb rest).1,
       Ev.recv :: (probeLoop ipStr isV6 wb rest).2) := rfl

theorem probeLoop_packet_other (ipStr isV6 wb peer data rest)
    (hp : peer ≠ ipStr) :
    probeLoop ipStr isV6 wb (RecvResult.packet peer data :: rest) =
      ((probeLoop ipStr isV6 wb rest).1,
       Ev.recv :: (probeLoop ipStr isV6 wb rest).2) := by
  simp [probeLoop, hp]

theorem probeLoop_packet_self (ipStr isV6 wb data rest) :
    probeLoop ipStr isV6 wb (RecvResult.packet ipStr data :: rest) =
      (if (if isV6 then (data.set 2 0).set 3 0 else data) = wb then
         ((some true : Option Bool), [Ev.recv])
       else
         ((probeLoop ipStr isV6 wb rest).1,
          Ev.recv :: (probeLoop ipStr isV6 wb rest).2)) := by
  by_cases hd : (if isV6 then (data.set 2 0).set 3 0 else data) = wb <;>
    simp [probeLoop, hd]

/-- A matching packet from the target, preceded only by non-timeout
outcomes, makes the loop answer `true`. -/
theorem probeLoop_match (ipStr : String) (isV6 : Bool) (wb : List Nat)
    (pre : List RecvResult) (data : List Nat) (rest : List RecvResult)
    (hpre : ∀ r ∈ pre, r ≠ RecvResult.timeout)
    (hd : (if isV6 then (data.set 2 0).set 3 0 else data) = wb) :
    (probeLoop ipStr isV6 wb
      (pre ++ RecvResult.packet ipStr data :: rest)).1 = some true := by
  induction pre with
  | nil =>
    simp [probeLoop_packet_self, hd]
  | cons r pre ih =>
    have hr : r ≠ RecvResult.timeout := hpre r (List.mem_cons_self r pre)
    have hpre' : ∀ r ∈ pre, r ≠ RecvResult.timeout := fun x hx =>
      hpre x (List.mem_cons_of_mem r hx)
    cases r with
    | timeout => exact absurd rfl hr
    | readErr => simpa [probeLoop_readErr] using ih hpre'
    | packet p d =>
      by_cases hp : p = ipStr
      · subst hp
        by_cases hmatch : (if isV6 then (d.set 2 0).set 3 0 else d) = wb
        · simp [probeLoop_packet_self, hmatch]
        · simpa [probeLoop_packet_self, hmatch] using ih hpre'
      · simpa [probeLoop_packet_other _ _ _ _ _ _ hp] using ih hpre'

/-- If the loop answers `true` then some packet in the stream came from
the target and, after the IPv6 checksum zeroing, equals the expected
buffer. -/
theorem probeLoop_true_mem (ipStr : String) (isV6 : Bool) (wb : List Nat)
    (l : List RecvResult)
    (h : (probeLoop ipStr isV6 wb l).1 = some true) :
    ∃ data, RecvResult.packet ipStr data ∈ l ∧
      (if isV6 then (data.set 2 0).set 3 0 else data) = wb := by
  induction l with
  | nil => simp [probeLoop_nil] at h
  | cons r rest ih =>
    cases r with
    | timeout => simp [probeLoop_timeout] at h
    | readErr =>
      rcases ih (by simpa [probeLoop_readErr] using h) with ⟨d, hd, hm⟩
      exact ⟨d, List.mem_cons_of_mem _ hd, hm⟩
    | packet p d =>
      by_cases hp : p = ipStr
      · subst hp
        by_cases hmatch : (if isV6 then (d.set 2 0).set 3 0 else d) = wb
        · exact ⟨d, List.mem_cons_self _ _, hmatch⟩
        · rcases ih (by simpa [probeLoop_packet_self, hmatch] using h) with
            ⟨d', hd', hm'⟩
          exact ⟨d', List.mem_cons_of_mem _ hd', hm'⟩
      · rcases ih (by simpa [probeLoop_packet_other _ _ _ _ _ _ hp] using h)
          with ⟨d', hd', hm'⟩
        exact ⟨d', List.mem_cons_of_mem _ hd', hm'⟩

/-- The loop performs only receives: it neither opens nor closes sockets
nor sends packets. -/
theorem probeLoop_trace_counts (ipStr isV6 wb l) :
    listenCount (probeLoop ipStr isV6 wb l).2 = 0 ∧
    closeCount (probeLoop ipStr isV6 wb l).2 = 0 ∧
    sendCount (probeLoop ipStr isV6 wb l).2 = 0 := by
  induction l with
  | nil => simp [probeLoop_nil, listenCount, closeCount, sendCount]
  | cons r rest ih =>
    cases r with
    | timeout => simp [probeLoop_timeout, listenCount, closeCount, sendCount]
    | readErr =>
      simpa [probeLoop_readErr, listenCount, closeCount, sendCount] using ih
    | packet p d =>
      by_cases hp : p = ipStr
      · subst hp
        by_cases hmatch : (if isV6 then (d.set 2 0).set 3 0 else d) = wb
        · simp [probeLoop_packet_self, hmatch, listenCount, closeCount,
            sendCount]
        · simpa [probeLoop_packet_self, hmatch, listenCount, closeCount,
            sendCount] using ih
      · simpa [probeLoop_packet_other _ _ _ _ _ _ hp, listenCount,
          closeCount, sendCount] using ih

/-! ### Sequence-counter lemmas -/

/-- Closed form of `n` sequential sequence calls. -/
theorem seqCalls_eq_map (s0 n : Nat) :
    seqCalls s0 n = (List.range n).map (fun i => (s0 + 1 + i) % 65536) := by
  induction n generalizing s0 with
  | zero => rfl
  | succ n ih =>
    show ((s0 + 1) % 65536) :: seqCalls ((s0 + 1) % 65536) n = _
    rw [ih, List.range_succ_eq_map, List.map_cons, List.map_map]
    refine congrArg₂ _ (by simp) (List.map_congr_left fun i _ => ?_)
    show ((s0 + 1) % 65536 + 1 + i) % 65536 = (s0 + 1 + (i + 1)) % 65536
    conv_lhs => rw [Nat.add_assoc, Nat.mod_add_mod]
    exact congrArg (· % 65536) (by omega)

/-- At most 65536 sequential calls return pairwise distinct values. -/
theorem seqCalls_nodup (s0 n : Nat) (hn : n ≤ 65536) :
    (seqCalls s0 n).Nodup := by
  rw [seqCalls_eq_map]
  refine List.Nodup.map_on ?_ (List.nodup_range n)
  intro i hi j hj hij
  rw [List.mem_range] at hi hj
  have h2 : Nat.ModEq 65536 i j :=
    Nat.ModEq.add_left_cancel' (s0 + 1) hij
  have h3 : i % 65536 = j % 65536 := h2
  rwa [Nat.mod_eq_of_lt (lt_of_lt_of_le hi hn),
    Nat.mod_eq_of_lt (lt_of_lt_of_le hj hn)] at h3

/-- Core matching fact shared by several claims: under a successful setup,
a packet from the target whose (possibly checksum-zeroed) bytes equal the
expected reply buffer, preceded only by non-timeout outcomes, makes the
probe answer `true`. -/
theorem probe_match_core (e : Env) (ip : IPAddr)
    (wb2 data : List Nat) (pre rest : List RecvResult)
    (h1 : e.resolve = some ip) (h2 : e.listenOk = true)
    (h3 : e.writeOk = true) (h4 : e.setDeadlineOk = true)
    (hm : Message.Marshal (replyMessage e ip) = some wb2)
    (hr : e.recvs = pre ++ RecvResult.packet ip.s data :: rest)
    (hpre : ∀ r ∈ pre, r ≠ RecvResult.timeout)
    (hd : (if ip.isV4 = false then (data.set 2 0).set 3 0 else data) = wb2) :
    (ProbeICMP e).1 = some true := by
  obtain ⟨wb, hm1⟩ := marshal_probeMessage e ip
  rw [ProbeICMP,
    probeWith_setup Message.Marshal e ip wb wb2 h1 h2 h3 h4 hm1 hm, hr]
  apply probeLoop_match _ _ _ _ _ _ hpre
  cases hb : ip.isV4 <;> simpa [hb] using hd

/-- A `true` answer of the probe comes from the receive loop running on
the marshalled expected-reply buffer: no abort path returns `true`. -/
theorem probe_true_loop (e : Env) (ip : IPAddr)
    (h1 : e.resolve = some ip) (ht : (ProbeICMP e).1 = some true) :
    ∃ wb2, Message.Marshal (replyMessage e ip) = some wb2 ∧
      (probeLoop ip.s (!ip.isV4) wb2 e.recvs).1 = some true := by
  obtain ⟨wb, hm1⟩ := marshal_probeMessage e ip
  obtain ⟨wb2, hm2⟩ := marshal_replyMessage e ip
  refine ⟨wb2, hm2, ?_⟩
  cases h2 : e.listenOk
  · simp [ProbeICMP, probeWith, h1, h2] at ht
  · cases h3 : e.writeOk
    · simp [ProbeICMP, probeWith, h1, h2, h3, hm1] at ht
    · cases h4 : e.setDeadlineOk
      · simp [ProbeICMP, probeWith, h1, h2, h3, h4, hm1, hm2] at ht
      · rwa [ProbeICMP,
          probeWith_setup Message.Marshal e ip wb wb2 h1 h2 h3 h4 hm1 hm2]
          at ht

/-- For an IPv6 target the expected-reply buffer is the reply header
`[129, 0, 0, 0]` followed by the marshalled echo body (zero checksum). -/
theorem replyMarshal_v6_shape (e : Env) (ip : IPAddr) (wb2 : List Nat)
    (hv6 : ip.isV4 = false)
    (hm : Message.Marshal (replyMessage e ip) = some wb2) :
    wb2 = 129 :: 0 :: 0 :: 0 :: (probeMessage e ip).Body.marshalBody := by
  have hrm : replyMessage e ip =
      { type := ICMPType.v6 129, Code := (probeMessage e ip).Code,
        Body := (probeMessage e ip).Body } := by
    simp [replyMessage, hv6]
  rw [hrm, Marshal_v6] at hm
  have hc : (probeMessage e ip).Code = 0 := rfl
  rw [hc] at hm
  simpa using hm.symm

/-- A receive count ignores the listen/send/set-deadline/close wrapper of
the loop trace. -/
theorem recvCount_wrap (wb : List Nat) (s : String) (d : Int) (t : List Ev) :
    recvCount ([Ev.listen, Ev.send wb s, Ev.setDeadline d] ++ t ++ [Ev.close])
      = recvCount t := by
  simp [recvCount, List.countP_append, List.countP_cons]

/-! ### Claims -/

/-- C6: each `getICMPSequence` call increments the process-wide 16-bit
counter by exactly one modulo 65536 and returns the new value; any run of
at most 65536 strictly sequential calls (to which the mutex reduces any
concurrent execution, with no lost update) yields pairwise distinct
values, and the counter wraps from 65535 to 0. -/
theorem getICMPSequence_spec :
    (∀ s, getICMPSequence s = ((s + 1) % 65536, (s + 1) % 65536))
    ∧ (∀ s0 n, n ≤ 65536 → (seqCalls s0 n).Nodup)
    ∧ getICMPSequence 65535 = (0, 0) :=
  ⟨fun _ => rfl, fun s0 n hn => seqCalls_nodup s0 n hn, rfl⟩

/-- Witness for C6 at concrete inputs. -/
theorem getICMPSequence_spec_witness :
    getICMPSequence 7 = ((7 + 1) % 65536, (7 + 1) % 65536)
    ∧ (seqCalls 65533 6).Nodup
    ∧ getICMPSequence 65535 = (0, 0) :=
  ⟨getICMPSequence_spec.1 7,
   getICMPSequence_spec.2.1 65533 6 (by decide),
   getICMPSequence_spec.2.2⟩

/-- C5: a resolution failure or socket-open failure makes `ProbeICMP`
return `false` at once with an empty event trace; an injected
request-marshal failure returns `false` having sent no packet and issued
no socket read; a write failure returns `false` after exactly one send
attempt with no read and no retry. -/
theorem probe_early_errors_abort (e : Env) :
    (e.resolve = none → ProbeICMP e = (some false, []))
    ∧ (∀ ip, e.resolve = some ip → e.listenOk = false →
        ProbeICMP e = (some false, []))
    ∧ (∀ (f : Message → Option (List Nat)) ip, e.resolve = some ip →
        e.listenOk = true → f (probeMessage e ip) = none →
        (probeWith f e).1 = some false ∧ sendCount (probeWith f e).2 = 0 ∧
          recvCount (probeWith f e).2 = 0)
    ∧ (∀ ip wb, e.resolve = some ip → e.listenOk = true →
        e.writeOk = false → Message.Marshal (probeMessage e ip) = some wb →
        (ProbeICMP e).1 = some false ∧ sendCount (ProbeICMP e).2 = 1 ∧
          recvCount (ProbeICMP e).2 = 0) := by
  refine ⟨fun h => ?_, fun ip h1 h2 => ?_, fun f ip h1 h2 hm => ?_,
    fun ip wb h1 h2 h3 hm => ?_⟩
  · simp [ProbeICMP, probeWith, h]
  · simp [ProbeICMP, probeWith, h1, h2]
  · simp [probeWith, h1, h2, hm, sendCount, recvCount]
  · simp [ProbeICMP, probeWith, h1, h2, h3, hm, sendCount, recvCount]

/-- Witness for C5 at concrete environments. -/
theorem probe_early_errors_abort_witness :
    ProbeICMP { sampleEnv with resolve := none } = (some false, [])
    ∧ ProbeICMP { sampleEnvV4 with listenOk := false } = (some false, [])
    ∧ ((probeWith (fun _ => none) sampleEnvV4).1 = some false ∧
       sendCount (probeWith (fun _ => none) sampleEnvV4).2 = 0 ∧
       recvCount (probeWith (fun _ => none) sampleEnvV4).2 = 0)
    ∧ ((ProbeICMP { sampleEnv with writeOk := false }).1 = some false ∧
       sendCount (ProbeICMP { sampleEnv with writeOk := false }).2 = 1 ∧
       recvCount (ProbeICMP { sampleEnv with writeOk := false }).2 = 0) :=
  ⟨(probe_early_errors_abort _).1 rfl,
   (probe_early_errors_abort _).2.1 _ rfl rfl,
   (probe_early_errors_abort _).2.2.1 (fun _ => none) _ rfl rfl rfl,
   (probe_early_errors_abort _).2.2.2 _ ([128, 0, 0, 0, 0, 0, 0, 1] ++ icmpPayload)
     rfl rfl rfl (by rfl)⟩

/-- C8: every probe execution closes exactly as many sockets as it opens,
on every exit path — match, timeout, exhaustion of the receive stream, and
each abort (including aborts before a socket exists and injected marshal
failures). -/
theorem probe_socket_balance (f : Message → Option (List Nat)) (e : Env) :
    listenCount (probeWith f e).2 = closeCount (probeWith f e).2 := by
  rcases he : e.resolve with _ | ip
  · simp [probeWith, he, listenCount, closeCount]
  · cases h2 : e.listenOk
    · simp [probeWith, he, h2, listenCount, closeCount]
    · rcases hm1 : f (probeMessage e ip) with _ | wb
      · simp [probeWith, he, h2, hm1, listenCount, closeCount]
      · cases h3 : e.writeOk
        · simp [probeWith, he, h2, hm1, h3, listenCount, closeCount]
        · rcases hm2 : f (replyMessage e ip) with _ | wb2
          · simp [probeWith, he, h2, hm1, h3, hm2, listenCount, closeCount]
          · cases h4 : e.setDeadlineOk
            · simp [probeWith, he, h2, hm1, h3, hm2, h4, listenCount,
                closeCount]
            · have hc := probeLoop_trace_counts ip.s
                ((if ip.isV4 = false then ICMPType.v6 129 else ICMPType.v4 0)
                  == ICMPType.v6 129) wb2 e.recvs
              simp only [listenCount, closeCount] at hc ⊢
              simp [probeWith, he, h2, hm1, h3, hm2, h4,
                List.countP_append, List.countP_cons, hc.1, hc.2.1]

/-- C2: with resolution, listen, write and set-deadline succeeded, a
timeout-classified receive error makes the probe return `false` after that
single receive, while a non-timeout receive error leaves the outcome that
of the remaining receive stream and adds exactly one receive call. -/
theorem probe_timeout_vs_readErr (e : Env) (ip : IPAddr)
    (rest : List RecvResult)
    (h1 : e.resolve = some ip) (h2 : e.listenOk = true)
    (h3 : e.writeOk = true) (h4 : e.setDeadlineOk = true) :
    (e.recvs = RecvResult.timeout :: rest →
       (ProbeICMP e).1 = some false ∧ recvCount (ProbeICMP e).2 = 1)
    ∧ (e.recvs = RecvResult.readErr :: rest →
       (ProbeICMP e).1 = (ProbeICMP { e with recvs := rest }).1 ∧
         recvCount (ProbeICMP e).2 =
           recvCount (ProbeICMP { e with recvs := rest }).2 + 1) := by
  obtain ⟨wb, hm1⟩ := marshal_probeMessage e ip
  obtain ⟨wb2, hm2⟩ := marshal_replyMessage e ip
  have hset := probeWith_setup Message.Marshal e ip wb wb2 h1 h2 h3 h4 hm1 hm2
  have hset' := probeWith_setup Message.Marshal { e with recvs := rest } ip
    wb wb2 h1 h2 h3 h4 hm1 hm2
  constructor
  · intro hr
    rw [ProbeICMP, hset, hr, probeLoop_timeout]
    refine ⟨rfl, ?_⟩
    rw [recvCount_wrap]
    rfl
  · intro hr
    rw [ProbeICMP, ProbeICMP, hset, hset', hr, probeLoop_readErr]
    refine ⟨rfl, ?_⟩
    rw [recvCount_wrap, recvCount_wrap]
    simp [recvCount, List.countP_cons]

/-- Witness for C2 at a concrete environment. -/
theorem probe_timeout_vs_readErr_witness :
    (ProbeICMP { sampleEnv with recvs := [RecvResult.timeout] }).1 = some false
    ∧ recvCount
        (ProbeICMP { sampleEnv with recvs := [RecvResult.timeout] }).2 = 1 :=
  (probe_timeout_vs_readErr _ _ [] rfl rfl rfl rfl).1 rfl

/-- C1: when resolution, socket open, both marshals and the send succeed,
a received packet from the resolved target whose bytes — after zeroing
checksum bytes 2-3 of the received copy when the probe is IPv6 — equal the
marshalled expected reply (the sent message with only the type switched to
the version's echo-reply constant), preceded only by non-timeout receive
outcomes, makes `ProbeICMP` return `true`. -/
theorem probe_match_returns_true (e : Env) (ip : IPAddr)
    (wb2 data : List Nat) (pre rest : List RecvResult)
    (h1 : e.resolve = some ip) (h2 : e.listenOk = true)
    (h3 : e.writeOk = true) (h4 : e.setDeadlineOk = true)
    (hm : Message.Marshal (replyMessage e ip) = some wb2)
    (hr : e.recvs = pre ++ RecvResult.packet ip.s data :: rest)
    (hpre : ∀ r ∈ pre, r ≠ RecvResult.timeout)
    (hd : (if ip.isV4 = false then (data.set 2 0).set 3 0 else data) = wb2) :
    (ProbeICMP e).1 = some true :=
  probe_match_core e ip wb2 data pre rest h1 h2 h3 h4 hm hr hpre hd

/-- Witness for C1 at a concrete IPv6 environment. -/
theorem probe_match_returns_true_witness :
    (ProbeICMP { sampleEnv with
      recvs := [RecvResult.packet "::1"
        ([129, 0, 0, 0, 0, 0, 0, 1] ++ icmpPayload)] }).1 = some true :=
  probe_match_returns_true _ _ ([129, 0, 0, 0, 0, 0, 0, 1] ++ icmpPayload)
    ([129, 0, 0, 0, 0, 0, 0, 1] ++ icmpPayload) [] []
    rfl rfl rfl rfl (by rfl) rfl (by simp) (by rfl)

/-- C3: a successfully received packet whose sender string differs from
the resolved target is discarded — outcome and residual receive count are
those of the remaining stream, whatever bytes it carried — and a later
matching packet from the target still yields `true`. -/
theorem probe_peer_filter (e : Env) (ip : IPAddr) (wb2 : List Nat)
    (peer : String) (data : List Nat) (rest : List RecvResult)
    (h1 : e.resolve = some ip) (h2 : e.listenOk = true)
    (h3 : e.writeOk = true) (h4 : e.setDeadlineOk = true)
    (hm : Message.Marshal (replyMessage e ip) = some wb2)
    (hp : peer ≠ ip.s)
    (hr : e.recvs = RecvResult.packet peer data :: rest) :
    ((ProbeICMP e).1 = (ProbeICMP { e with recvs := rest }).1 ∧
     recvCount (ProbeICMP e).2 =
       recvCount (ProbeICMP { e with recvs := rest }).2 + 1)
    ∧ (∀ data2 rest2, rest = RecvResult.packet ip.s data2 :: rest2 →
        (if ip.isV4 = false then (data2.set 2 0).set 3 0 else data2) = wb2 →
        (ProbeICMP e).1 = some true) := by
  obtain ⟨wb, hm1⟩ := marshal_probeMessage e ip
  have hset := probeWith_setup Message.Marshal e ip wb wb2 h1 h2 h3 h4 hm1 hm
  have hset' := probeWith_setup Message.Marshal { e with recvs := rest } ip
    wb wb2 h1 h2 h3 h4 hm1 hm
  constructor
  · rw [ProbeICMP, ProbeICMP, hset, hset', hr,
      probeLoop_packet_other _ _ _ _ _ _ hp]
    refine ⟨rfl, ?_⟩
    rw [recvCount_wrap, recvCount_wrap]
    simp [recvCount, List.countP_cons]
  · intro data2 rest2 hrest hd
    apply probe_match_core e ip wb2 data2
      [RecvResult.packet peer data] rest2 h1 h2 h3 h4 hm
    · rw [hr, hrest]
      rfl
    · intro r hmem
      simp only [List.mem_singleton] at hmem
      subst hmem
      exact fun h => RecvResult.noConfusion h
    · exact hd

/-- Witness for C3 at a concrete IPv6 environment. -/
theorem probe_peer_filter_witness :
    (((ProbeICMP { sampleEnv with
        recvs := [RecvResult.packet "::2" [9, 9, 9],
          RecvResult.packet "::1" ([129, 0, 0, 0, 0, 0, 0, 1] ++ icmpPayload)] }).1
      = (ProbeICMP { sampleEnv with
          recvs := [RecvResult.packet "::1"
            ([129, 0, 0, 0, 0, 0, 0, 1] ++ icmpPayload)] }).1 ∧
      recvCount (ProbeICMP { sampleEnv with
        recvs := [RecvResult.packet "::2" [9, 9, 9],
          RecvResult.packet "::1" ([129, 0, 0, 0, 0, 0, 0, 1] ++ icmpPayload)] }).2
      = recvCount (ProbeICMP { sampleEnv with
          recvs := [RecvResult.packet "::1"
            ([129, 0, 0, 0, 0, 0, 0, 1] ++ icmpPayload)] }).2 + 1)
     ∧ (ProbeICMP { sampleEnv with
        recvs := [RecvResult.packet "::2" [9, 9, 9],
          RecvResult.packet "::1" ([129, 0, 0, 0, 0, 0, 0, 1] ++ icmpPayload)] }).1
       = some true) := by
  have h := probe_peer_filter { sampleEnv with
      recvs := [RecvResult.packet "::2" [9, 9, 9],
        RecvResult.packet "::1" ([129, 0, 0, 0, 0, 0, 0, 1] ++ icmpPayload)] }
    { s := "::1", isV4 := false } ([129, 0, 0, 0, 0, 0, 0, 1] ++ icmpPayload)
    "::2" [9, 9, 9]
    [RecvResult.packet "::1" ([129, 0, 0, 0, 0, 0, 0, 1] ++ icmpPayload)]
    rfl rfl rfl rfl (by rfl) (by decide) rfl
  exact ⟨h.1, h.2 ([129, 0, 0, 0, 0, 0, 0, 1] ++ icmpPayload) [] rfl (by rfl)⟩

/-- C4: for an IPv6 probe, match is independent of checksum bytes 2-3 of
the received packet: the expected buffer carries zeros there (marshalled
without a pseudo-header) and any packet from the target equal to it except
possibly at offsets 2-3 — arbitrary bytes `c2`, `c3` — is a match. -/
theorem probe_v6_checksum_independent (e : Env) (ip : IPAddr)
    (wb2 : List Nat) (c2 c3 : Nat)
    (h1 : e.resolve = some ip) (h2 : e.listenOk = true)
    (h3 : e.writeOk = true) (h4 : e.setDeadlineOk = true)
    (hv6 : ip.isV4 = false)
    (hm : Message.Marshal (replyMessage e ip) = some wb2)
    (hr : e.recvs = [RecvResult.packet ip.s ((wb2.set 2 c2).set 3 c3)]) :
    wb2.get? 2 = some 0 ∧ wb2.get? 3 = some 0 ∧ (ProbeICMP e).1 = some true := by
  have hshape := replyMarshal_v6_shape e ip wb2 hv6 hm
  refine ⟨by rw [hshape]; rfl, by rw [hshape]; rfl, ?_⟩
  apply probe_match_core e ip wb2 ((wb2.set 2 c2).set 3 c3) [] []
    h1 h2 h3 h4 hm (by simpa using hr) (by simp)
  rw [hv6]
  simp only [if_pos rfl]
  rw [hshape]
  simp [List.set]

/-- Witness for C4 at a concrete environment with corrupted checksum
bytes 250 and 251. -/
theorem probe_v6_checksum_independent_witness :
    (([129, 0, 0, 0, 0, 0, 0, 1] ++ icmpPayload).get? 2 = some 0 ∧
     ([129, 0, 0, 0, 0, 0, 0, 1] ++ icmpPayload).get? 3 = some 0 ∧
     (ProbeICMP { sampleEnv with
        recvs := [RecvResult.packet "::1"
          (((([129, 0, 0, 0, 0, 0, 0, 1] ++ icmpPayload).set 2 250).set 3 251))] }).1
       = some true) :=
  probe_v6_checksum_independent _ _ ([129, 0, 0, 0, 0, 0, 0, 1] ++ icmpPayload)
    250 251 rfl rfl rfl rfl rfl (by rfl) rfl

/-- C9: the probe answers `true` only through a packet whose byte count
equals the expected reply buffer's length (the comparison of `rb[:n]`
against `wb` requires equal lengths, and the IPv6 zeroing preserves
length); a packet from the target that is a strict prefix of the expected
buffer or extends it never matches. -/
theorem probe_match_requires_exact_length (e : Env) (ip : IPAddr)
    (wb2 : List Nat)
    (h1 : e.resolve = some ip)
    (hm : Message.Marshal (replyMessage e ip) = some wb2) :
    ((ProbeICMP e).1 = some true →
      ∃ data, RecvResult.packet ip.s data ∈ e.recvs ∧
        data.length = wb2.length)
    ∧ (∀ data, e.recvs = [RecvResult.packet ip.s data] →
        data.length ≠ wb2.length → (ProbeICMP e).1 ≠ some true) := by
  have hlen : ∀ data : List Nat,
      (if (!ip.isV4) = true then (data.set 2 0).set 3 0 else data) = wb2 →
      data.length = wb2.length := by
    intro data hd
    cases hv : ip.isV4
    · rw [hv] at hd
      simp at hd
      rw [← hd]
      simp [List.length_set]
    · rw [hv] at hd
      simp at hd
      rw [hd]
  constructor
  · intro ht
    obtain ⟨wb2', hm', hloop⟩ := probe_true_loop e ip h1 ht
    rw [hm] at hm'
    obtain rfl : wb2 = wb2' := by injection hm'
    obtain ⟨data, hmem, hd⟩ := probeLoop_true_mem _ _ _ _ hloop
    exact ⟨data, hmem, hlen data hd⟩
  · intro data hr hne ht
    obtain ⟨wb2', hm', hloop⟩ := probe_true_loop e ip h1 ht
    rw [hm] at hm'
    obtain rfl : wb2 = wb2' := by injection hm'
    obtain ⟨d, hmem, hd⟩ := probeLoop_true_mem _ _ _ _ hloop
    rw [hr, List.mem_singleton] at hmem
    injection hmem with _ hdd
    subst hdd
    exact hne (hlen d hd)

/-- Witness for C9: a truncated 8-byte reply (strict prefix of the
expected 36-byte buffer) never matches. -/
theorem probe_match_requires_exact_length_witness :
    (ProbeICMP { sampleEnv with
      recvs := [RecvResult.packet "::1" [129, 0, 0, 0, 0, 0, 0, 1]] }).1
      ≠ some true :=
  (probe_match_requires_exact_length _ _
      ([129, 0, 0, 0, 0, 0, 0, 1] ++ icmpPayload) rfl (by rfl)).2
    [129, 0, 0, 0, 0, 0, 0, 1] rfl (by decide)

/-- C7: the instant handed to `SetReadDeadline` is exactly the caller
context's absolute deadline: when the context carries deadline `d`, the
two `time.Now()` calls of line 53 observe the same instant and `d` is
within duration range of it, the computed deadline is `d` itself and the
trace records `setDeadline d`. -/
theorem probe_deadline_absolute (e : Env) (ip : IPAddr) (d : Int)
    (h1 : e.resolve = some ip) (h2 : e.listenOk = true)
    (h3 : e.writeOk = true)
    (hd : e.ctxDeadline = some d) (hnow : e.now1 = e.now2)
    (hb1 : minDuration ≤ d - e.now2) (hb2 : d - e.now2 ≤ maxDuration) :
    computeDeadline e = d ∧ Ev.setDeadline d ∈ (ProbeICMP e).2 := by
  obtain ⟨wb, hm1⟩ := marshal_probeMessage e ip
  obtain ⟨wb2, hm2⟩ := marshal_replyMessage e ip
  have hcd : computeDeadline e = d := by
    simp only [computeDeadline, hd, Option.getD_some, timeSub]
    rw [if_neg (by simp only [minDuration] at hb1 ⊢; omega),
      if_neg (by simp only [maxDuration] at hb2 ⊢; omega)]
    omega
  refine ⟨hcd, ?_⟩
  cases h4 : e.setDeadlineOk
  · simp [ProbeICMP, probeWith, h1, h2, h3, h4, hm1, hm2, hcd]
  · rw [ProbeICMP,
      probeWith_setup Message.Marshal e ip wb wb2 h1 h2 h3 h4 hm1 hm2]
    simp [hcd]

/-- Witness for C7 at a concrete environment (ctx deadline 100, both
`Now` calls at 5). -/
theorem probe_deadline_absolute_witness :
    computeDeadline sampleEnv = 100 ∧
      Ev.setDeadline 100 ∈ (ProbeICMP sampleEnv).2 :=
  probe_deadline_absolute _ _ 100 rfl rfl rfl rfl rfl (by decide) (by decide)

/-- C10: with no deadline on the context, the dropped ok flag makes the
probe compute its read deadline from the zero time value: the deadline is
`zeroTime`, strictly in the past whenever the current instant is positive,
and once the setup succeeds the first receive's timeout makes the probe
return `false` rather than block or succeed. -/
theorem probe_no_ctx_deadline (e : Env) (ip : IPAddr)
    (rest : List RecvResult)
    (hd : e.ctxDeadline = none) (hnow : e.now1 = e.now2)
    (hb1 : minDuration ≤ zeroTime - e.now2)
    (hb2 : zeroTime - e.now2 ≤ maxDuration)
    (h1 : e.resolve = some ip) (h2 : e.listenOk = true)
    (h3 : e.writeOk = true) (h4 : e.setDeadlineOk = true)
    (hr : e.recvs = RecvResult.timeout :: rest) :
    computeDeadline e = zeroTime
    ∧ (0 < e.now1 → computeDeadline e < e.now1)
    ∧ (ProbeICMP e).1 = some false := by
  obtain ⟨wb, hm1⟩ := marshal_probeMessage e ip
  obtain ⟨wb2, hm2⟩ := marshal_replyMessage e ip
  have hcd : computeDeadline e = zeroTime := by
    simp only [computeDeadline, hd, Option.getD_none, timeSub]
    rw [if_neg (by simp only [minDuration, zeroTime] at hb1 ⊢; omega),
      if_neg (by simp only [maxDuration, zeroTime] at hb2 ⊢; omega)]
    simp only [zeroTime]
    omega
  refine ⟨hcd, fun hpos => by rw [hcd]; simpa [zeroTime] using hpos, ?_⟩
  rw [ProbeICMP,
    probeWith_setup Message.Marshal e ip wb wb2 h1 h2 h3 h4 hm1 hm2, hr,
    probeLoop_timeout]

/-- Witness for C10 at a concrete environment with no context deadline. -/
theorem probe_no_ctx_deadline_witness :
    computeDeadline { sampleEnv with
      ctxDeadline := none, recvs := [RecvResult.timeout] } = zeroTime
    ∧ (0 < ({ sampleEnv with
          ctxDeadline := none, recvs := [RecvResult.timeout] } : Env).now1 →
        computeDeadline { sampleEnv with
          ctxDeadline := none, recvs := [RecvResult.timeout] }
          < ({ sampleEnv with
              ctxDeadline := none, recvs := [RecvResult.timeout] } : Env).now1)
    ∧ (ProbeICMP { sampleEnv with
        ctxDeadline := none, recvs := [RecvResult.timeout] }).1 = some false :=
  probe_no_ctx_deadline _ _ [] rfl rfl (by decide) (by decide)
    rfl rfl rfl rfl rfl

end ICMPProbe
